import Mathlib

/-!
# Smart Campus Assistant — client core, shallow embedding

A shallow embedding of the session/workspace core of the frontend
(`src/frontend/src/lib/api.ts`, `src/frontend/src/components/AuthGate.tsx`,
`src/frontend/src/components/QuizViewer.tsx`,
`src/frontend/src/components/ChatBox.tsx`, `src/frontend/src/pages/Home.tsx`),
together with theorems settling the specification's testable properties.

JSON values are modelled by an inductive type; JavaScript objects are
key/value lists (lookup takes the first matching key).  The platform
primitives `fetch` and `JSON.parse` are modelled as input data: an
`HttpOutcome` carries the response flags, the body text, and the outcome of
`JSON.parse` on that text (`none` when parsing throws).
-/

namespace SmartCampus

/-- JSON-like values exchanged with the backend. -/
inductive Json where
  | null
  | bool (b : Bool)
  | num (n : Int)
  | str (s : String)
  | arr (elems : List Json)
  | obj (fields : List (String × Json))

/-- JavaScript property access `v?.key`: yields the field's value on an
object that has the key, and `none` (undefined) otherwise. -/
def jsGet : Json → String → Option Json
  | .obj fields, key => (fields.find? (fun p => p.1 == key)).map Prod.snd
  | _, _ => none

/-- JavaScript falsiness: `null`, `false`, `0` and `""` are falsy. -/
def jsFalsy : Json → Bool
  | .null => true
  | .bool b => !b
  | .num n => n == 0
  | .str s => s == ""
  | _ => false

/-- JavaScript `typeof v === "object"`: true for objects, arrays and `null`. -/
def jsTypeofObject : Json → Bool
  | .null => true
  | .arr _ => true
  | .obj _ => true
  | _ => false

/-- `Object.keys(v).length` for the values on which the code calls it. -/
def jsObjectKeysLength : Json → Nat
  | .obj fields => fields.length
  | .arr elems => elems.length
  | _ => 0

/-- The JavaScript nullish-coalescing operator `a ?? b` (undefined is
modelled by `none`, JavaScript `null` by `some .null`). -/
def orNullish (a : Option Json) (b : Option Json) : Option Json :=
  match a with
  | none => b
  | some .null => b
  | some v => some v

/-- The JavaScript logical-or `a || b` on a possibly-undefined left operand:
returns `a`'s value when it is truthy, else `b`. -/
def jsOr (a : Option Json) (b : Json) : Json :=
  match a with
  | none => b
  | some v => if jsFalsy v then b else v

/-! ## Remote API client (`src/frontend/src/lib/api.ts`) -/

/-- One HTTP response as observed by `callJson`: the `res.ok` flag,
`res.status`, the body text, and the outcome of `JSON.parse` on that text
(`some j` when parsing succeeds with value `j`, `none` when it throws). -/
structure HttpOutcome where
  ok : Bool
  status : Int
  text : String
  parsed : Option Json

/-- `let json = null; try { json = text ? JSON.parse(text) : null } catch
{ json = { raw: text } }` from `callJson`. -/
def bodyJson (r : HttpOutcome) : Json :=
  if r.text = "" then .null
  else
    match r.parsed with
    | some j => j
    | none => .obj [("raw", .str r.text)]

/-- `callJson` (api.ts): after computing `json` from the body,
`if (!res.ok) throw json || { status: res.status, text }; return json`.
The result is `.error e` when the call throws `e`, `.ok j` when it
resolves with `j`. -/
def callJson (r : HttpOutcome) : Except Json Json :=
  let json := bodyJson r
  if r.ok then .ok json
  else .error (if jsFalsy json then .obj [("status", .num r.status), ("text", .str r.text)] else json)

/-! ## SessionGate (`src/frontend/src/components/AuthGate.tsx`) -/

/-- The observable session state: the persisted credential (`sca_token`)
and the `user` React state (`none` renders the unauthenticated view). -/
structure GateState where
  token : Option String
  user : Option Json

/-- The fully logged-out state: no credential, no user. -/
def unauthenticated : GateState := { token := none, user := none }

/-- `checkTokenAndFetch` from AuthGate.tsx, as a function of the persisted
token and the network outcome of the `/auth/me` call (`none` when `fetch`
itself rejects).  Mirrors: the early return on a missing token; the
normalization `const u = res?.user ?? res ?? null`; the empty-user check
`!u || (typeof u === "object" && Object.keys(u).length === 0)` which clears
the token; and the `catch` branch which clears the token. -/
def checkTokenAndFetch (token : Option String) (net : Option HttpOutcome) : GateState :=
  match token with
  | none => { token := none, user := none }
  | some t =>
    let meResult : Except Json Json :=
      match net with
      | none => .error .null
      | some r => callJson r
    match meResult with
    | .error _ => { token := none, user := none }
    | .ok res =>
      match orNullish (jsGet res "user") (orNullish (some res) (some .null)) with
      | none => { token := none, user := none }
      | some u =>
        if jsFalsy u || (jsTypeofObject u && jsObjectKeysLength u == 0) then
          { token := none, user := none }
        else
          { token := some t, user := some u }

/-! ## QuizGrader (`src/frontend/src/components/QuizViewer.tsx`) -/

namespace QuizViewer

/-- The `Q` interface of QuizViewer.tsx: one quiz question as delivered by
the backend (`options` and `correct_option` optional, the latter verbatim
payload text). -/
structure Q where
  question : String
  options : Option (List String)
  correct_option : Option String
  explanation : Option String
  deriving DecidableEq

/-- The component state of QuizViewer: `selectedAnswers` is the JS object
`{ [qIndex]: letter }` kept as an insertion-ordered key/value list,
`submitted` and `score` the other two `useState` cells. -/
structure QuizState where
  selectedAnswers : List (Nat × String)
  submitted : Bool
  score : Option Nat
  deriving DecidableEq

/-- Initial state: `{}`, `false`, `null`. -/
def initQuizState : QuizState :=
  { selectedAnswers := [], submitted := false, score := none }

/-- `String.fromCharCode(65 + optionIndex)` — the positional letter. -/
def letterOf (optionIndex : Nat) : String :=
  String.mk [Char.ofNat (65 + optionIndex)]

/-- JS object spread-update `{ ...prev, [k]: v }`: overwrites the value of
an existing key in place, otherwise appends the new key. -/
def recordKey (m : List (Nat × String)) (k : Nat) (v : String) : List (Nat × String) :=
  if m.any (fun p => p.1 == k) then
    m.map (fun p => if p.1 == k then (k, v) else p)
  else m ++ [(k, v)]

/-- JS property read `m[k]`: `none` is `undefined`. -/
def lookupKey (m : List (Nat × String)) (k : Nat) : Option String :=
  (m.find? (fun p => p.1 == k)).map Prod.snd

/-- `handleSelect(qIndex, optionIndex)`: no-op after submission, otherwise
stores the positional letter under the question index. -/
def handleSelect (s : QuizState) (qIndex optionIndex : Nat) : QuizState :=
  if s.submitted then s
  else { s with selectedAnswers := recordKey s.selectedAnswers qIndex (letterOf optionIndex) }

/-- JS `String.prototype.toUpperCase` (ASCII fragment, as exercised):
per-character uppercasing. -/
def jsUpper (s : String) : String := String.mk (s.data.map Char.toUpper)

/-- JS `String.prototype.trim`: strip whitespace from both ends. -/
def jsTrim (s : String) : String :=
  String.mk (((s.data.dropWhile Char.isWhitespace).reverse.dropWhile Char.isWhitespace).reverse)

/-- `(x || "").toUpperCase().trim()` applied to a possibly-undefined
string-valued field. -/
def normLetter (o : Option String) : String := jsTrim (jsUpper (o.getD ""))

/-- `handleSubmit()`: no-op if submitted or the quiz is empty; otherwise the
`quiz.forEach` loop accumulating `correctCount` and then
`setScore(correctCount); setSubmitted(true)`. -/
def handleSubmit (quiz : List Q) (s : QuizState) : QuizState :=
  if s.submitted then s
  else if quiz.length = 0 then s
  else
    { s with
      score := some (quiz.enum.foldl
        (fun acc p =>
          if normLetter p.2.correct_option != ""
              && normLetter (lookupKey s.selectedAnswers p.1) != ""
              && normLetter p.2.correct_option == normLetter (lookupKey s.selectedAnswers p.1)
          then acc + 1 else acc) 0),
      submitted := true }

/-- The number of questions whose normalized correct letter and normalized
chosen letter are both non-empty and equal (the count the specification
describes). -/
def specMatchCount (quiz : List Q) (sel : List (Nat × String)) : Nat :=
  (quiz.enum.filter
    (fun p =>
      normLetter p.2.correct_option != ""
        && normLetter (lookupKey sel p.1) != ""
        && normLetter p.2.correct_option == normLetter (lookupKey sel p.1))).length

/-- The user-driven operations of one quiz attempt. -/
inductive QuizOp where
  | select (qIndex optionIndex : Nat)
  | submit

/-- One step of the quiz attempt state machine. -/
def quizStep (quiz : List Q) (s : QuizState) : QuizOp → QuizState
  | .select q i => handleSelect s q i
  | .submit => handleSubmit quiz s

/-- States reachable from the freshly created attempt by user operations. -/
inductive QuizReachable (quiz : List Q) : QuizState → Prop where
  | init : QuizReachable quiz initQuizState
  | step {s : QuizState} (op : QuizOp) :
      QuizReachable quiz s → QuizReachable quiz (quizStep quiz s op)

/-- A single string is one of the 26 uppercase letters `A`–`Z`. -/
def isAtoZ (s : String) : Bool :=
  match s.data with
  | [c] => decide ('A' ≤ c) && decide (c ≤ 'Z')
  | _ => false

/-- The quiz of the specification's worked example:
`[{question:"Q1", options:["x","y","z"], correct_option:"B"}]`. -/
def exampleQuiz : List Q :=
  [{ question := "Q1", options := some ["x", "y", "z"],
     correct_option := some "B", explanation := none }]

end QuizViewer

/-! ## ChatBox (`src/frontend/src/components/ChatBox.tsx`) -/

namespace ChatBox

/-- The answer path of `handleSubmit` in ChatBox.tsx:
`const content = res?.answer || "No answer returned"`, as a function of the
resolved `/answer` payload (`none` models an undefined `res`). -/
def answerContent (res : Option Json) : Json :=
  jsOr
    (match res with
     | none => none
     | some r => jsGet r "answer")
    (.str "No answer returned")

/-- Spec §3 `Quote` (corresponds to the `QuoteObj` declaration in src). -/
structure Quote where
  sourceIndex : Int
  text : String
  deriving DecidableEq

/-- Spec §3 `Source` (corresponds to the `SourceObj` declaration in src). -/
structure Source where
  sourceIndex : Int
  title : Option String
  page : Option Int
  deriving DecidableEq

/-- Spec §3 `ChatMessage` payload fields (id/role/timestamp omitted: they
are not data-dependent on the backend payload). -/
structure ChatMessage where
  content : String
  quotes : List Quote
  sources : List Source
  suggestions : List String
  deriving DecidableEq

/-- The string content of a JSON value (`none` when it is not a string). -/
def asString : Json → Option String
  | .str s => some s
  | _ => none

/-- The integer content of a JSON value (`none` when it is not a number). -/
def asInt : Json → Option Int
  | .num n => some n
  | _ => none

/-- Modelled from the spec: the `numeric(...)` coercion used by
§4.2's quote mapping; numbers pass through, anything else degrades to 0. -/
def specNumeric : Json → Int
  | .num n => n
  | _ => 0

/-- Modelled from the spec: the `string(...)` coercion used by §4.2's quote
mapping; strings pass through, anything else degrades to the empty string
(only strings are exercised by the claims). -/
def specText : Json → String
  | .str s => s
  | _ => ""

/-- Modelled from the spec: the quote-normalization step of
`ResponseNormalizer.normalize` (§4.2) is absent from `src/` — the shipped
ChatBox builds content-only messages and only the `QuoteObj`/`Message`
declarations remain — so it follows the spec's words: an array of objects
maps each item to `{sourceIndex: numeric(item.source ?? item.source_number
?? 0), text: string(item.text ?? item)}`; an array of plain strings gets
1-based positional indices; a single string wraps as one quote with index
1; anything else is empty. -/
def normalizeQuotes (qv : Option Json) : List Quote :=
  match qv with
  | some (.arr elems) =>
      if elems.all (fun e => match e with | .obj _ => true | _ => false) then
        elems.map (fun e =>
          { sourceIndex := specNumeric ((orNullish (jsGet e "source")
                (orNullish (jsGet e "source_number") (some (.num 0)))).getD (.num 0)),
            text := specText ((orNullish (jsGet e "text") (some e)).getD e) })
      else if elems.all (fun e => match e with | .str _ => true | _ => false) then
        elems.enum.map (fun p => { sourceIndex := (p.1 : Int) + 1, text := specText p.2 })
      else []
  | some (.str s) => [{ sourceIndex := 1, text := s }]
  | _ => []

/-- Modelled from the spec: the `retrieved`-array fallback of §4.2's source
normalization (absent from `src/`): 1-based indices from position. -/
def retrievedSources (payload : Json) : List Source :=
  match jsGet payload "retrieved" with
  | some (.arr elems) =>
      elems.enum.map (fun p =>
        { sourceIndex := (p.1 : Int) + 1,
          title := (jsGet p.2 "title").bind asString,
          page := (jsGet p.2 "page").bind asInt })
  | _ => []

/-- Modelled from the spec: the source-normalization step of §4.2 (absent
from `src/`): an array of objects maps directly with the item's
`source_number` or a 1-based positional fallback index; otherwise the
`retrieved` fallback applies; otherwise empty. -/
def normalizeSources (payload : Json) : List Source :=
  match jsGet payload "sources" with
  | some (.arr elems) =>
      if elems.all (fun e => match e with | .obj _ => true | _ => false) then
        elems.enum.map (fun p =>
          { sourceIndex :=
              match jsGet p.2 "source_number" with
              | some (.num n) => n
              | _ => (p.1 : Int) + 1,
            title := (jsGet p.2 "title").bind asString,
            page := (jsGet p.2 "page").bind asInt })
      else retrievedSources payload
  | _ => retrievedSources payload

/-- Modelled from the spec: §4.2's suggestion normalization (absent from
`src/`): the first array found among `payload.study_suggestions`,
`payload.suggestions`; otherwise empty. -/
def normalizeSuggestions (payload : Json) : List String :=
  match jsGet payload "study_suggestions" with
  | some (.arr elems) => elems.filterMap asString
  | _ =>
    match jsGet payload "suggestions" with
    | some (.arr elems) => elems.filterMap asString
    | _ => []

/-- First non-empty string among the given (possibly undefined) JSON
values, else the fallback. -/
def firstNonEmptyString : List (Option Json) → String → String
  | [], fallback => fallback
  | x :: rest, fallback =>
    match x with
    | some (.str s) => if s = "" then firstNonEmptyString rest fallback else s
    | _ => firstNonEmptyString rest fallback

/-- Modelled from the spec: `ResponseNormalizer.normalize` of §4.2, absent
from `src/` (the shipped ChatBox only computes `content`): content is the
first non-empty of `payload.answer`, `payload.raw`, else the fallback
string; quotes come from `payload.quotes` (legacy alias `payload.quoted`);
sources and suggestions as in their helpers. -/
def normalize (payload : Json) : ChatMessage :=
  { content := firstNonEmptyString [jsGet payload "answer", jsGet payload "raw"] "No answer returned",
    quotes := normalizeQuotes (orNullish (jsGet payload "quotes") (jsGet payload "quoted")),
    sources := normalizeSources payload,
    suggestions := normalizeSuggestions payload }

end ChatBox

/-! ## Logout (`api.ts` `logout`, AuthGate.tsx `handleLogout`) -/

/-- `api.logout` (api.ts): its entire body is `setToken(null)` — it issues
no HTTP request.  The value is the list of backend paths requested by the
call (none) paired with the persisted token after it (cleared). -/
def apiLogout : List String × Option String := ([], none)

/-- The observable outcome of a logout: every backend path requested during
it, the final persisted token, and the final `user` state. -/
structure LogoutOutcome where
  requests : List String
  token : Option String
  user : Option Json

/-- `handleLogout` from AuthGate.tsx: `await api.logout()` (which clears the
token and requests nothing), then `api._setToken?.(null)` and
`setUser(null)`.  The `catch` branch is unreachable: `api.logout` performs
no fallible operation. -/
def handleLogout (_s : GateState) : LogoutOutcome :=
  { requests := apiLogout.1, token := none, user := none }

/-! ## WorkspaceState (`src/frontend/src/pages/Home.tsx`) -/

namespace Home

/-- The `DocItem` type of DocumentList.tsx. -/
structure DocItem where
  _id : Option String
  file_id : Option String
  title : Option String
  filename : Option String
  num_pages : Option Nat
  num_chunks : Option Nat
  deriving DecidableEq

/-- The component state of Home.tsx. -/
structure HomeState where
  darkMode : Bool
  hasUploadedFiles : Bool
  sidebarOpen : Bool
  reloadKey : Nat
  selectedDoc : Option DocItem
  deriving DecidableEq

/-- The `useState` initializers of Home.tsx: `hasUploadedFiles` is
`localStorage.getItem("sca_has_docs") === "1"`. -/
def initHomeState (persistedHasDocs : Option String) : HomeState :=
  { darkMode := false, hasUploadedFiles := persistedHasDocs == some "1",
    sidebarOpen := false, reloadKey := 0, selectedDoc := none }

/-- The client-side operations that update Home.tsx state. -/
inductive HomeOp where
  | loadDarkMode (saved : Bool)
  | toggleDarkMode
  | mountFetch (res : Option Json)
  | uploadSuccess
  | openSidebar
  | closeSidebar
  | selectDoc (doc : DocItem)

/-- One state update of Home.tsx: `mountFetch` is the `getDocuments` effect
on mount (`none` when the call throws; otherwise
`Array.isArray(res) ? res : res?.documents ?? res?.docs ?? []` and the flag
is set only for a non-empty array); `uploadSuccess` is
`handleUploadSuccess` (`setHasUploadedFiles(true); setReloadKey(k => k+1)`);
the rest are the dark-mode, sidebar and selection handlers. -/
def homeStep (s : HomeState) : HomeOp → HomeState
  | .loadDarkMode saved => { s with darkMode := saved }
  | .toggleDarkMode => { s with darkMode := !s.darkMode }
  | .mountFetch none => s
  | .mountFetch (some res) =>
      let list : Json :=
        match res with
        | .arr _ => res
        | _ => (orNullish (jsGet res "documents")
                 (orNullish (jsGet res "docs") (some (.arr [])))).getD (.arr [])
      match list with
      | .arr elems => if elems.length > 0 then { s with hasUploadedFiles := true } else s
      | _ => s
  | .uploadSuccess => { s with hasUploadedFiles := true, reloadKey := s.reloadKey + 1 }
  | .openSidebar => { s with sidebarOpen := true }
  | .closeSidebar => { s with sidebarOpen := false }
  | .selectDoc d => { s with selectedDoc := some d, sidebarOpen := false }

end Home

end SmartCampus

/-! ## Helper lemmas -/

namespace SmartCampus

open QuizViewer ChatBox Home

/-- Counting with a fold (the `forEach` accumulator) equals the length of
the filtered list. -/
theorem foldl_count_eq {α : Type} (p : α → Bool) (l : List α) (n : Nat) :
    l.foldl (fun acc x => if p x then acc + 1 else acc) n = n + (l.filter p).length := by
  induction l generalizing n with
  | nil => simp
  | cons a l ih =>
    cases h : p a with
    | true => simp [List.foldl_cons, h, ih, List.filter_cons]; omega
    | false => simp [List.foldl_cons, h, ih, List.filter_cons]

/-- Enumerating a mapped list enumerates the original and maps the values. -/
theorem enumFrom_map_pair {α β : Type} (f : α → β) (l : List α) (n : Nat) :
    (l.map f).enumFrom n = (l.enumFrom n).map (fun p => (p.1, f p.2)) := by
  induction l generalizing n with
  | nil => rfl
  | cons a l ih => simp [List.enumFrom, List.map_cons, ih]

/-- `enum` version of `enumFrom_map_pair`. -/
theorem enum_map_pair {α β : Type} (f : α → β) (l : List α) :
    (l.map f).enum = l.enum.map (fun p => (p.1, f p.2)) :=
  enumFrom_map_pair f l 0

/-- If some key of `m` satisfies the update predicate, overwriting it in
place makes the first lookup of that key find the new pair. -/
theorem find?_map_update (k : Nat) (v : String) :
    ∀ m : List (Nat × String), m.any (fun p => p.1 == k) = true →
      (m.map (fun p => if p.1 == k then (k, v) else p)).find? (fun p => p.1 == k)
        = some (k, v) := by
  intro m
  induction m with
  | nil => intro h; simp at h
  | cons p m ih =>
    intro h
    by_cases hp : p.1 = k
    · simp only [List.map_cons, hp, beq_self_eq_true, if_true, List.find?_cons]
    · have hp' : (p.1 == k) = false := by simp [hp]
      simp only [List.any_cons, hp', Bool.false_or] at h
      simp only [List.map_cons, hp', Bool.false_eq_true, if_false, List.find?_cons]
      exact ih h

/-- In-place overwrite of key `k` does not change lookups of other keys. -/
theorem find?_map_update_ne (k : Nat) (v : String) (j : Nat) (hne : j ≠ k) :
    ∀ m : List (Nat × String),
      (m.map (fun p => if p.1 == k then (k, v) else p)).find? (fun p => p.1 == j)
        = m.find? (fun p => p.1 == j) := by
  intro m
  induction m with
  | nil => rfl
  | cons p m ih =>
    by_cases hp : p.1 = k
    · have h1 : (p.1 == j) = false := by simp [hp]; exact fun hh => hne hh.symm
      have h2 : (k == j) = false := by simp; exact fun hh => hne hh.symm
      simp only [List.map_cons, hp, beq_self_eq_true, if_true, List.find?_cons, h1, h2]
      exact ih
    · have hp' : (p.1 == k) = false := by simp [hp]
      simp only [List.map_cons, hp', Bool.false_eq_true, if_false, List.find?_cons]
      cases hj : (p.1 == j) with
      | true => rfl
      | false => exact ih

/-- Appending a fresh key makes its lookup find the appended pair, provided
no key of `m` matches it. -/
theorem find?_append_fresh (k : Nat) (v : String) :
    ∀ m : List (Nat × String), m.any (fun p => p.1 == k) = false →
      (m ++ [(k, v)]).find? (fun p => p.1 == k) = some (k, v) := by
  intro m
  induction m with
  | nil => intro _; simp [List.find?]
  | cons p m ih =>
    intro h
    simp only [List.any_cons, Bool.or_eq_false_iff] at h
    simp [List.find?, h.1, ih h.2]

/-- Appending a pair with key `k` does not change lookups of other keys. -/
theorem find?_append_ne (k : Nat) (v : String) (j : Nat) (hne : j ≠ k) :
    ∀ m : List (Nat × String),
      (m ++ [(k, v)]).find? (fun p => p.1 == j) = m.find? (fun p => p.1 == j) := by
  intro m
  induction m with
  | nil =>
    have h2 : (k == j) = false := by simp; exact fun hh => hne hh.symm
    simp [List.find?, h2]
  | cons p m ih =>
    cases hj : (p.1 == j) with
    | true => simp [List.find?, hj]
    | false => simp [List.find?, hj, ih]

/-- Looking up the written key after `{ ...prev, [k]: v }` yields `v`. -/
theorem lookupKey_recordKey_self (m : List (Nat × String)) (k : Nat) (v : String) :
    lookupKey (recordKey m k v) k = some v := by
  unfold recordKey lookupKey
  by_cases h : m.any (fun p => p.1 == k) = true
  · rw [if_pos h, find?_map_update k v m h]; rfl
  · rw [if_neg h, find?_append_fresh k v m (Bool.eq_false_iff.mpr h)]; rfl

/-- Looking up any other key after `{ ...prev, [k]: v }` is unchanged. -/
theorem lookupKey_recordKey_ne (m : List (Nat × String)) (k : Nat) (v : String)
    (j : Nat) (hne : j ≠ k) : lookupKey (recordKey m k v) j = lookupKey m j := by
  unfold recordKey lookupKey
  by_cases h : m.any (fun p => p.1 == k) = true
  · rw [if_pos h, find?_map_update_ne k v j hne m]
  · rw [if_neg h, find?_append_ne k v j hne m]

/-- Every pair of `{ ...prev, [k]: v }` either carries the new value or was
already present. -/
theorem mem_recordKey (m : List (Nat × String)) (k : Nat) (v : String)
    (p : Nat × String) (hp : p ∈ recordKey m k v) : p.2 = v ∨ p ∈ m := by
  unfold recordKey at hp
  by_cases h : m.any (fun q => q.1 == k) = true
  · rw [if_pos h] at hp
    rcases List.mem_map.mp hp with ⟨q, hq, hqp⟩
    by_cases hqk : q.1 = k
    · left; rw [← hqp]; simp [hqk]
    · right; rw [← hqp]; simp [hqk]; exact hq
  · rw [if_neg h] at hp
    rcases List.mem_append.mp hp with h1 | h2
    · right; exact h1
    · left; simp at h2; rw [h2]

/-! ## Claim theorems: QuizGrader -/

/-- **C2.** For every quiz attempt reachable by user operations, `score` is
defined (non-null) if and only if `submitted = true`; and a second call to
`submit()` after the first has no effect: it leaves the recorded score and
all other attempt state exactly as the first call left them. -/
theorem quiz_score_defined_iff_submitted :
    (∀ (quiz : List Q) (s : QuizState),
        QuizReachable quiz s → s.score.isSome = s.submitted)
    ∧ ∀ (quiz : List Q) (s : QuizState),
        handleSubmit quiz (handleSubmit quiz s) = handleSubmit quiz s := by
  constructor
  · intro quiz s h
    induction h with
    | init => rfl
    | @step t op h ih =>
      cases op with
      | select q i =>
        by_cases hs : t.submitted = true <;>
          simp [quizStep, handleSelect, hs, ih]
      | submit =>
        by_cases hs : t.submitted = true
        · simp [quizStep, handleSubmit, hs, ih]
        · by_cases hq : quiz.length = 0
          · simp [quizStep, handleSubmit, hs, hq, ih]
          · simp [quizStep, handleSubmit, hs, hq]
  · intro quiz s
    by_cases hs : s.submitted = true
    · simp [handleSubmit, hs]
    · by_cases hq : quiz.length = 0
      · simp [handleSubmit, hs, hq]
      · simp [handleSubmit, hs, hq]

/-- Witness for C2 at a concrete reachable attempt: one selection followed
by a submit on the example quiz. -/
theorem quiz_score_defined_iff_submitted_witness :
    (quizStep exampleQuiz (quizStep exampleQuiz initQuizState (.select 0 1)) .submit).score.isSome
      = (quizStep exampleQuiz (quizStep exampleQuiz initQuizState (.select 0 1)) .submit).submitted :=
  quiz_score_defined_iff_submitted.1 exampleQuiz _
    (QuizReachable.step QuizOp.submit (QuizReachable.step (QuizOp.select 0 1) QuizReachable.init))

/-- **C3.** For every non-empty question list and every selection map,
`submit()` sets `score` to the number of questions whose uppercased,
trimmed correct-option letter and uppercased, trimmed selected letter are
both non-empty and equal, and sets `submitted = true`; on an empty question
list `submit()` is a no-op; and on the worked example (question with
options `x`,`y`,`z`, correct option `B`, option index 1 selected) the score
is 1. -/
theorem quiz_submit_scoring :
    (∀ (quiz : List Q) (s : QuizState), s.submitted = false → quiz ≠ [] →
        handleSubmit quiz s
          = { s with score := some (specMatchCount quiz s.selectedAnswers),
                     submitted := true })
    ∧ (∀ s : QuizState, handleSubmit [] s = s)
    ∧ (quizStep exampleQuiz (quizStep exampleQuiz initQuizState (.select 0 1)) .submit).score
        = some 1 := by
  refine ⟨?_, ?_, by decide⟩
  · intro quiz s hs hq
    have hlen : ¬quiz.length = 0 := by simpa [List.length_eq_zero] using hq
    simp only [handleSubmit, hs, hlen, Bool.false_eq_true, if_false]
    rw [foldl_count_eq]
    simp [specMatchCount]
  · intro s
    by_cases hs : s.submitted = true <;> simp [handleSubmit, hs]

/-- Witness for C3: the scoring equation applied to the example quiz after
selecting option index 1 for question 0. -/
theorem quiz_submit_scoring_witness :
    handleSubmit exampleQuiz (handleSelect initQuizState 0 1)
      = { handleSelect initQuizState 0 1 with
          score := some (specMatchCount exampleQuiz
            (handleSelect initQuizState 0 1).selectedAnswers),
          submitted := true } :=
  quiz_submit_scoring.1 exampleQuiz (handleSelect initQuizState 0 1) (by decide) (by decide)

/-- **C9.** After `submit()`, `select(q, i)` has no observable effect;
before submission it records the positional letter for option index `i`
under question `q`, overwriting only that question's selection and leaving
every other question's selection, the submission flag and the score
unchanged. -/
theorem select_frozen_after_submit :
    (∀ (s : QuizState) (q i : Nat), s.submitted = true → handleSelect s q i = s)
    ∧ ∀ (s : QuizState) (q i : Nat), s.submitted = false →
        lookupKey (handleSelect s q i).selectedAnswers q = some (letterOf i)
        ∧ (∀ j : Nat, j ≠ q →
            lookupKey (handleSelect s q i).selectedAnswers j = lookupKey s.selectedAnswers j)
        ∧ (handleSelect s q i).submitted = s.submitted
        ∧ (handleSelect s q i).score = s.score := by
  constructor
  · intro s q i hs; simp [handleSelect, hs]
  · intro s q i hs
    refine ⟨?_, ?_, by simp [handleSelect, hs], by simp [handleSelect, hs]⟩
    · simp [handleSelect, hs, lookupKey_recordKey_self]
    · intro j hj
      simp [handleSelect, hs, lookupKey_recordKey_ne s.selectedAnswers q (letterOf i) j hj]

/-- Witness for C9: freezing after submit, and the overwrite/frame facts on
a concrete pre-submission state. -/
theorem select_frozen_after_submit_witness :
    (handleSelect (handleSubmit exampleQuiz initQuizState) 0 2
        = handleSubmit exampleQuiz initQuizState)
    ∧ lookupKey (handleSelect (handleSelect initQuizState 1 0) 0 1).selectedAnswers 0
        = some (letterOf 1)
    ∧ lookupKey (handleSelect (handleSelect initQuizState 1 0) 0 1).selectedAnswers 1
        = lookupKey (handleSelect initQuizState 1 0).selectedAnswers 1 :=
  ⟨select_frozen_after_submit.1 (handleSubmit exampleQuiz initQuizState) 0 2 (by decide),
   (select_frozen_after_submit.2 (handleSelect initQuizState 1 0) 0 1 (by decide)).1,
   (select_frozen_after_submit.2 (handleSelect initQuizState 1 0) 0 1 (by decide)).2.1 1
     (by decide)⟩

/-- Counterexample to **C8** as stated: option index 26 can occur (a
question may have more than 26 options), and the letter the attempt then
holds for it, `String.fromCharCode(65 + 26) = "["`, is not one of the 26
uppercase letters A–Z. -/
theorem quiz_letter_out_of_range :
    lookupKey (handleSelect initQuizState 0 26).selectedAnswers 0 = some "["
    ∧ isAtoZ "[" = false := by decide

/-- **C8 (amended).** Every recorded selection letter is positionally
derived (`String.fromCharCode(65 + optionIndex)`); it lies in A–Z whenever
the option index is at most 25, and states whose recorded letters all lie
in A–Z stay that way under any `select` with option index at most 25.
(A question's `correct_option` is stored verbatim from the backend payload
and only uppercased/trimmed at scoring time, so the A–Z invariant cannot
cover it.) -/
theorem quiz_letters_positional :
    (∀ i : Nat, (letterOf i).data = [Char.ofNat (65 + i)])
    ∧ (∀ i : Nat, i ≤ 25 → isAtoZ (letterOf i) = true)
    ∧ ∀ (s : QuizState) (q i : Nat), i ≤ 25 →
        (∀ p ∈ s.selectedAnswers, isAtoZ p.2 = true) →
        ∀ p ∈ (handleSelect s q i).selectedAnswers, isAtoZ p.2 = true := by
  refine ⟨fun i => rfl, ?_, ?_⟩
  · intro i hi
    interval_cases i <;> decide
  · intro s q i hi hall p hp
    by_cases hs : s.submitted = true
    · simp only [handleSelect, hs, if_true] at hp
      exact hall p hp
    · simp only [handleSelect] at hp
      rw [if_neg hs] at hp
      simp only at hp
      rcases mem_recordKey _ _ _ _ hp with h1 | h2
      · rw [h1]
        have : isAtoZ (letterOf i) = true := by
          have hi' := hi
          interval_cases i <;> decide
        exact this
      · exact hall p h2

/-- Witness for C8 (amended): the A–Z fact at index 3 and the preservation
fact applied after one concrete selection. -/
theorem quiz_letters_positional_witness :
    isAtoZ (letterOf 3) = true
    ∧ isAtoZ ((0, letterOf 1) : Nat × String).2 = true :=
  ⟨quiz_letters_positional.2.1 3 (by decide),
   quiz_letters_positional.2.2 initQuizState 0 1 (by decide)
     (by intro p hp; simp [initQuizState] at hp) (0, letterOf 1) (by decide)⟩

/-! ## Claim theorems: SessionGate and API client -/

/-- Counterexample to **C1** as stated: a parse failure on an `ok` who-am-I
response (non-empty body that is not valid JSON) is wrapped by the API
client as `{ raw: <body> }`, which AuthGate accepts as a non-empty user:
the gate ends Authenticated and the persisted credential is kept, not
cleared. -/
theorem authgate_parse_failure_fails_open :
    checkTokenAndFetch (some "t")
        (some { ok := true, status := 200, text := "hello", parsed := none })
      = { token := some "t", user := some (.obj [("raw", .str "hello")]) }
    ∧ checkTokenAndFetch (some "t")
        (some { ok := true, status := 200, text := "hello", parsed := none })
      ≠ unauthenticated := by
  refine ⟨rfl, fun h => ?_⟩
  have h' : ({ token := some "t", user := some (Json.obj [("raw", Json.str "hello")]) } : GateState)
      = unauthenticated := h
  simp [unauthenticated] at h'

/-- **C1 (amended).** For every who-am-I response that resolves to `null`
or to an object with zero observable fields, and for every transport
failure (a rejected fetch or a non-ok status), the gate ends Unauthenticated
(`user = null`) and the persisted credential is cleared.  (A parse failure
on an ok response is instead wrapped as `{ raw: <body> }` and accepted as a
user, see the counterexample.) -/
theorem authgate_fail_closed :
    (∀ (t : String) (r : HttpOutcome), callJson r = .ok .null →
        checkTokenAndFetch (some t) (some r) = unauthenticated)
    ∧ (∀ (t : String) (r : HttpOutcome), callJson r = .ok (.obj []) →
        checkTokenAndFetch (some t) (some r) = unauthenticated)
    ∧ (∀ t : String, checkTokenAndFetch (some t) none = unauthenticated)
    ∧ (∀ (t : String) (r : HttpOutcome), r.ok = false →
        checkTokenAndFetch (some t) (some r) = unauthenticated) := by
  refine ⟨?_, ?_, fun t => rfl, ?_⟩
  · intro t r h
    simp [checkTokenAndFetch, h, orNullish, jsGet, jsFalsy, unauthenticated]
  · intro t r h
    simp [checkTokenAndFetch, h, orNullish, jsGet, jsFalsy, jsTypeofObject,
      jsObjectKeysLength, unauthenticated]
  · intro t r h
    simp [checkTokenAndFetch, callJson, h, unauthenticated]

/-- Witness for C1 (amended): the four clauses applied at concrete
responses (empty body, empty-object body, rejected fetch, 500 status). -/
theorem authgate_fail_closed_witness :
    checkTokenAndFetch (some "t") (some ⟨true, 200, "", none⟩) = unauthenticated
    ∧ checkTokenAndFetch (some "t") (some ⟨true, 200, "{}", some (.obj [])⟩) = unauthenticated
    ∧ checkTokenAndFetch (some "t") none = unauthenticated
    ∧ checkTokenAndFetch (some "t") (some ⟨false, 500, "oops", none⟩) = unauthenticated :=
  ⟨authgate_fail_closed.1 "t" ⟨true, 200, "", none⟩ rfl,
   authgate_fail_closed.2.1 "t" ⟨true, 200, "{}", some (.obj [])⟩ rfl,
   authgate_fail_closed.2.2.1 "t",
   authgate_fail_closed.2.2.2 "t" ⟨false, 500, "oops", none⟩ rfl⟩

/-- **C10.** A `callJson` request raises if and only if the response status
is not ok; on an ok status it returns the parsed JSON body, and an ok body
that is non-empty but not valid JSON is returned wrapped as
`{ raw: <body text> }` rather than raising a parse error. -/
theorem callJson_error_iff_not_ok :
    (∀ r : HttpOutcome, (∃ e, callJson r = .error e) ↔ r.ok = false)
    ∧ (∀ (r : HttpOutcome) (j : Json), r.ok = true → r.text ≠ "" → r.parsed = some j →
        callJson r = .ok j)
    ∧ (∀ r : HttpOutcome, r.ok = true → r.text ≠ "" → r.parsed = none →
        callJson r = .ok (.obj [("raw", .str r.text)])) := by
  refine ⟨?_, ?_, ?_⟩
  · intro r
    constructor
    · rintro ⟨e, he⟩
      cases hok : r.ok with
      | false => rfl
      | true => simp [callJson, hok] at he
    · intro h
      refine ⟨if jsFalsy (bodyJson r) then .obj [("status", .num r.status), ("text", .str r.text)]
        else bodyJson r, ?_⟩
      simp [callJson, h]
  · intro r j hok htext hparsed
    simp [callJson, bodyJson, hok, htext, hparsed]
  · intro r hok htext hparsed
    simp [callJson, bodyJson, hok, htext, hparsed]

/-- Witness for C10: a parsed ok response and an unparseable ok response. -/
theorem callJson_error_iff_not_ok_witness :
    callJson ⟨true, 200, "[1]", some (.arr [.num 1])⟩ = .ok (.arr [.num 1])
    ∧ callJson ⟨true, 200, "hello", none⟩ = .ok (.obj [("raw", .str "hello")]) :=
  ⟨callJson_error_iff_not_ok.2.1 ⟨true, 200, "[1]", some (.arr [.num 1])⟩ _ rfl (by decide) rfl,
   callJson_error_iff_not_ok.2.2 ⟨true, 200, "hello", none⟩ rfl (by decide) rfl⟩

/-! ## Claim theorems: ChatBox -/

/-- Counterexample to **C5** as stated: for the payload `{raw: "x"}` the
shipped answer path produces the fallback string, not `payload.raw` —
`res?.answer || "No answer returned"` never consults `raw`. -/
theorem answer_content_ignores_raw :
    answerContent (some (.obj [("raw", .str "x")])) = .str "No answer returned"
    ∧ answerContent (some (.obj [("raw", .str "x")])) ≠ .str "x" := by
  refine ⟨rfl, fun h => ?_⟩
  have h' : Json.str "No answer returned" = Json.str "x" := h
  simp at h'

/-- **C5 (amended).** The content of the chat message produced by the
answer path is `payload.answer` whenever that field is present and truthy,
and the literal fallback string for "no answer returned" otherwise;
`payload.raw` is never consulted. -/
theorem answer_content_from_answer_only :
    (∀ (r a : Json), jsGet r "answer" = some a → jsFalsy a = false →
        answerContent (some r) = a)
    ∧ (∀ (r a : Json), jsGet r "answer" = some a → jsFalsy a = true →
        answerContent (some r) = .str "No answer returned")
    ∧ (∀ r : Json, jsGet r "answer" = none →
        answerContent (some r) = .str "No answer returned")
    ∧ answerContent none = .str "No answer returned" := by
  refine ⟨?_, ?_, ?_, rfl⟩
  · intro r a h hf; simp [answerContent, jsOr, h, hf]
  · intro r a h hf; simp [answerContent, jsOr, h, hf]
  · intro r h; simp [answerContent, jsOr, h]

/-- Witness for C5 (amended): a truthy answer, an empty (falsy) answer, and
a payload with only `raw`. -/
theorem answer_content_from_answer_only_witness :
    answerContent (some (.obj [("answer", .str "42")])) = .str "42"
    ∧ answerContent (some (.obj [("answer", .str "")])) = .str "No answer returned"
    ∧ answerContent (some (.obj [("raw", .str "z")])) = .str "No answer returned" :=
  ⟨answer_content_from_answer_only.1 _ _ rfl rfl,
   answer_content_from_answer_only.2.1 _ _ rfl rfl,
   answer_content_from_answer_only.2.2.1 _ rfl⟩

/-- **C4.** For every answer payload whose `quotes` field is an array of
plain strings, normalization yields one quote per string with a 1-based
positional `sourceIndex`; in particular
`normalize({quotes:["hello"], sources:[{title:"Doc A"}]})` yields one quote
with `sourceIndex = 1`, text `hello`, and one source with
`sourceIndex = 1`, title `Doc A`. -/
theorem normalize_quotes_positional :
    (∀ (payload : Json) (ss : List String),
        jsGet payload "quotes" = some (.arr (ss.map Json.str)) →
        (ChatBox.normalize payload).quotes
          = ss.enum.map (fun p => { sourceIndex := (p.1 : Int) + 1, text := p.2 }))
    ∧ (ChatBox.normalize (.obj [("quotes", .arr [.str "hello"]),
          ("sources", .arr [.obj [("title", .str "Doc A")]])])).quotes
        = [{ sourceIndex := 1, text := "hello" }]
    ∧ (ChatBox.normalize (.obj [("quotes", .arr [.str "hello"]),
          ("sources", .arr [.obj [("title", .str "Doc A")]])])).sources
        = [{ sourceIndex := 1, title := some "Doc A", page := none }] := by
  refine ⟨?_, rfl, rfl⟩
  intro payload ss h
  show normalizeQuotes (orNullish (jsGet payload "quotes") (jsGet payload "quoted")) = _
  rw [h]
  show normalizeQuotes (some (.arr (ss.map Json.str))) = _
  cases ss with
  | nil => rfl
  | cons a tl =>
    have hobj : ((a :: tl).map Json.str).all
        (fun e => match e with | .obj _ => true | _ => false) = false := by
      simp [List.map_cons, List.all_cons]
    have hstr : ((a :: tl).map Json.str).all
        (fun e => match e with | .str _ => true | _ => false) = true := by
      simp [List.all_map, Function.comp]
    simp only [normalizeQuotes, hobj, hstr, Bool.false_eq_true, if_false, if_true]
    rw [enum_map_pair, List.map_map]
    rfl

/-- Witness for C4: the positional clause applied to a two-string quotes
array. -/
theorem normalize_quotes_positional_witness :
    (ChatBox.normalize (.obj [("quotes", .arr [.str "a", .str "b"])])).quotes
      = (["a", "b"] : List String).enum.map
          (fun p => { sourceIndex := (p.1 : Int) + 1, text := p.2 }) :=
  normalize_quotes_positional.1 (.obj [("quotes", .arr [.str "a", .str "b"])]) ["a", "b"] rfl

/-! ## Claim theorems: logout and workspace -/

/-- Counterexample to **C6** as stated: `logout()` issues no backend
request at all — `api.logout`'s whole body is `setToken(null)` — so in
particular no backend logout endpoint is called (the local clearing does
happen). -/
theorem logout_no_backend_request :
    (handleLogout { token := some "tok", user := some (.obj [("name", .str "u")]) }).requests = []
    ∧ "/auth/logout"
        ∉ (handleLogout { token := some "tok", user := some (.obj [("name", .str "u")]) }).requests :=
  ⟨rfl, by simp [handleLogout, apiLogout]⟩

/-- **C6 (amended).** `logout()` makes no backend call; in all cases it
clears the persisted credential and transitions the session to
Unauthenticated. -/
theorem logout_clears_local_state (s : GateState) :
    handleLogout s = { requests := [], token := none, user := none } := rfl

/-- **C7.** Every successful upload sets `hasDocuments` to true and
increments `reloadToken` by exactly 1, and no client-side operation ever
returns `hasDocuments` from true to false (sticky-true across all
operations; deleting documents never touches the flag). -/
theorem upload_sets_flag_and_sticky :
    (∀ s : HomeState,
        (homeStep s .uploadSuccess).hasUploadedFiles = true
        ∧ (homeStep s .uploadSuccess).reloadKey = s.reloadKey + 1)
    ∧ ∀ (s : HomeState) (op : HomeOp),
        s.hasUploadedFiles = true → (homeStep s op).hasUploadedFiles = true := by
  constructor
  · intro s; exact ⟨rfl, rfl⟩
  · intro s op h
    cases op with
    | loadDarkMode saved => simpa [homeStep] using h
    | toggleDarkMode => simpa [homeStep] using h
    | mountFetch r =>
      cases r with
      | none => simpa [homeStep] using h
      | some res =>
        dsimp only [homeStep]
        split
        · split
          · rfl
          · exact h
        · exact h
    | uploadSuccess => rfl
    | openSidebar => simpa [homeStep] using h
    | closeSidebar => simpa [homeStep] using h
    | selectDoc d => simpa [homeStep] using h

/-- Witness for C7: stickiness applied after a concrete upload, through a
dark-mode toggle and a mount fetch that reports no documents. -/
theorem upload_sets_flag_and_sticky_witness :
    (homeStep (homeStep (homeStep (initHomeState none) .uploadSuccess) .toggleDarkMode)
        (.mountFetch (some (.obj [("documents", .arr [])])))).hasUploadedFiles = true :=
  upload_sets_flag_and_sticky.2
    (homeStep (homeStep (initHomeState none) .uploadSuccess) .toggleDarkMode)
    (.mountFetch (some (.obj [("documents", .arr [])])))
    (upload_sets_flag_and_sticky.2 (homeStep (initHomeState none) .uploadSuccess)
      .toggleDarkMode (by rfl))

end SmartCampus
